import Mathlib

/-!
Shallow embedding of `dlt_workflow_orchestration.py` (NYC taxi extraction
pipeline adapter): date-range enumeration of monthly file names, HTTP fetch
classification, gzip+CSV decompress-and-parse, and the extraction resource
loop with its log-and-skip policy.
-/

/-- A calendar date as pandas parses timestamps: year, month (1..12),
day-of-month.  `pd.to_datetime "YYYY-MM"` yields day 1. -/
structure Date where
  year : Nat
  month : Nat
  day : Nat
deriving DecidableEq, Repr

/-- Absolute month index `year*12 + (month-1)`; identifies a calendar month. -/
def Date.monthIndex (d : Date) : Nat := d.year * 12 + (d.month - 1)

/-- Month-start date (day 1) of the calendar month with absolute index `k`:
the instants enumerated by `pd.date_range` with month-start frequency. -/
def firstOfMonth (k : Nat) : Date := ⟨k / 12, k % 12 + 1, 1⟩

/-- Chronological order on dates (lexicographic on year, month, day), as
pandas compares timestamps. -/
def dateLE (a b : Date) : Bool :=
  decide (a.year < b.year ∨ (a.year = b.year ∧
    (a.month < b.month ∨ (a.month = b.month ∧ a.day ≤ b.day))))

/-- Model of `pd.date_range` with month-start frequency MS, as called in
`generate_file_names`: every month-start instant `d`
with `start ≤ d ≤ end`, in ascending order.  (Months outside
`[start.monthIndex, stop.monthIndex]` cannot qualify, so enumerating that
candidate window and filtering is the library behaviour.) -/
def date_range_MS (start stop : Date) : List Date :=
  ((List.range (stop.monthIndex + 1 - start.monthIndex)).map
      (fun i => firstOfMonth (start.monthIndex + i))).filter
    (fun d => dateLE start d && dateLE d stop)

/-- Decimal digit character, code `48 + d` for `d < 10`. -/
def decDigitChar (d : Nat) : Char := Char.ofNat (48 + d)

/-- Fuel-indexed decimal rendering of a natural number, most significant
digit first; models Python `str`/`%Y` output for in-range years. -/
def renderAux : Nat → Nat → List Char
  | 0, _ => []
  | fuel + 1, n =>
    if n < 10 then [decDigitChar n]
    else renderAux fuel (n / 10) ++ [decDigitChar (n % 10)]

/-- Decimal string of a natural number (`str(n)` in Python). -/
def natLit (n : Nat) : String := ⟨renderAux (n + 1) n⟩

/-- Zero-padded two-digit rendering: strftime format %m for months 1..12. -/
def pad2 (n : Nat) : String := if n < 10 then "0" ++ natLit n else natLit n

/-- Rendering of `dt.strftime` with format %Y-%m for a pandas month-start
timestamp. -/
def strftime_Ym (d : Date) : String := natLit d.year ++ "-" ++ pad2 d.month

namespace WorkflowOrchestrationDlt

/-- The per-month file name f-string: taxi type, then literal _tripdata_,
then the rendered year-month, then the .csv.gz suffix. -/
def tripdataFileName (taxi_type : String) (d : Date) : String :=
  taxi_type ++ "_tripdata_" ++ strftime_Ym d ++ ".csv.gz"

/-- Embedding of `generate_file_names`: file names for each month-start in
the pandas date range, with the start and end dates of the request
already parsed. -/
def generate_file_names (taxi_type : String) (start_date end_date : Date) :
    List String :=
  (date_range_MS start_date end_date).map (tripdataFileName taxi_type)

end WorkflowOrchestrationDlt

/-! ## The request object

`WorkflowOrchestrationDlt.__init__` stores the CLI strings; pandas later
parses them inside `generate_file_names`.  `parse_date` models
`pd.to_datetime` on `"YYYY-MM"` (day defaults to 1) and `"YYYY-MM-DD"`. -/

/-- Split a character list at every occurrence of `sep` (like Python
`str.split(sep)` on a one-character separator). -/
def splitOnChar (sep : Char) : List Char → List (List Char)
  | [] => [[]]
  | c :: cs =>
    match splitOnChar sep cs with
    | [] => [[]]
    | g :: gs => if c = sep then [] :: g :: gs else (c :: g) :: gs

/-- Value of one decimal digit character, `none` for a non-digit. -/
def digitVal? (c : Char) : Option Nat :=
  if 48 ≤ c.toNat ∧ c.toNat ≤ 57 then some (c.toNat - 48) else none

/-- Parse a non-empty all-digit character list as a natural number. -/
def parseNatAux : List Char → Nat → Option Nat
  | [], acc => some acc
  | c :: cs, acc =>
    match digitVal? c with
    | some d => parseNatAux cs (acc * 10 + d)
    | none => none

/-- Parse a non-empty all-digit character list; `none` when empty. -/
def parseNatChars : List Char → Option Nat
  | [] => none
  | c :: cs => parseNatAux (c :: cs) 0

/-- Modelled from the library contract of `pd.to_datetime` on the CLI date
strings: `"YYYY-MM"` parses with day-of-month 1, `"YYYY-MM-DD"` keeps the
day; anything else is a parse failure. -/
def parse_date (s : String) : Option Date :=
  match (splitOnChar (Char.ofNat 45) s.data).map parseNatChars with
  | [some y, some m] => some ⟨y, m, 1⟩
  | [some y, some m, some d] => some ⟨y, m, d⟩
  | _ => none

namespace WorkflowOrchestrationDlt

/-- The constructor arguments of `WorkflowOrchestrationDlt` (CLI strings). -/
structure Request where
  taxi_type : String
  start_date : String
  end_date : String

/-- Embedding of `self.base_url`, built in `__init__` from the taxi
type. -/
def base_url (taxi_type : String) : String :=
  "https://github.com/DataTalksClub/nyc-tlc-data/releases/download/" ++
    taxi_type ++ "/"

/-- Runs `generate_file_names` on the stored CLI strings: pandas parses the two
dates, then the month-start range is rendered into file names.  `none`
models a pandas parse failure (which the source does not catch). -/
def Request.file_names (w : Request) : Option (List String) :=
  match parse_date w.start_date, parse_date w.end_date with
  | some s, some e => some (generate_file_names w.taxi_type s e)
  | _, _ => none

end WorkflowOrchestrationDlt

/-! ## Fetch outcomes, gzip bodies, CSV parsing

`requests.get` either returns a response (status code + body) or raises a
transport exception.  A body is modelled by whether it is valid gzip data,
and if so by its decompressed UTF-8 text: `gzip` and `pd.read_csv` are
external libraries, embedded by their documented contract. -/

/-- A downloaded body: valid gzip data carrying its decompressed text, or
bytes on which `gzip.open`/decoding fails. -/
inductive Body where
  | valid (text : String)
  | invalid
deriving DecidableEq, Repr

/-- Outcome of `requests.get(file_url, stream=True)`. -/
inductive FetchOutcome where
  | response (status : Nat) (body : Body)
  | raise (msg : String)
deriving DecidableEq, Repr

/-- A parsed cell after pandas column type inference.  Numeric (float64)
cells are modelled as exact decimals `m / 10^e` in canonical form
(fraction with trailing zeros stripped). -/
inductive CellValue where
  | int (i : Int)
  | num (m : Int) (e : Nat)
  | str (s : String)
deriving DecidableEq, Repr

/-- The rational denoted by a numeric cell `CellValue.num m e`. -/
def CellValue.ratOfNum (m : Int) (e : Nat) : Rat := (m : Rat) / 10 ^ e

/-- One record of `df.to_dict` with orient records: column name to value,
in header order. -/
def Row : Type := List (String × CellValue)
deriving instance DecidableEq, Repr for Row

/-- Strip trailing decimal zeros: `(1550, 2)` (i.e. `15.50`) becomes
`(155, 1)` (i.e. `15.5`), the canonical decimal for one float64 value. -/
def normDec : Int → Nat → Int × Nat
  | m, 0 => (m, 0)
  | m, e + 1 => if m % 10 = 0 then normDec (m / 10) e else (m, e + 1)

/-- Parse an optionally signed integer cell (pandas int64 inference). -/
def parseIntChars (cs : List Char) : Option Int :=
  match cs with
  | c :: rest =>
    if c = Char.ofNat 45 then (parseNatChars rest).map (fun n => -(n : Int))
    else (parseNatChars cs).map (fun n => (n : Int))
  | [] => none

/-- Parse an optionally signed decimal cell (`digits` or `digits.digits`)
into a canonical `(mantissa, exponent)` pair. -/
def parseDecChars (cs : List Char) : Option (Int × Nat) :=
  match cs with
  | c :: rest =>
    if c = Char.ofNat 45 then
      (parseDecCharsPos rest).map (fun p => normDec (-p.1) p.2)
    else (parseDecCharsPos cs).map (fun p => normDec p.1 p.2)
  | [] => none
where
  /-- Unsigned decimal: whole digits, optionally a dot and fraction digits. -/
  parseDecCharsPos (cs : List Char) : Option (Int × Nat) :=
    match splitOnChar (Char.ofNat 46) cs with
    | [a] => (parseNatChars a).map (fun n => ((n : Int), 0))
    | [a, b] =>
      match parseNatChars a, parseNatChars b with
      | some x, some y => some ((x * 10 ^ b.length + y : Int), b.length)
      | _, _ => none
    | _ => none

/-- Pandas column type inference on the raw cells of one column: an
all-integer column is int64, an all-decimal column is float64, anything
else stays as strings (object dtype). -/
def inferColumn (cells : List (List Char)) : List CellValue :=
  if cells.all (fun c => (parseIntChars c).isSome) then
    cells.map (fun c => .int ((parseIntChars c).getD 0))
  else if cells.all (fun c => (parseDecChars c).isSome) then
    cells.map (fun c => match parseDecChars c with
      | some p => .num p.1 p.2
      | none => .str ⟨c⟩)
  else cells.map (fun c => .str ⟨c⟩)

/-- Embedding of `pd.read_csv` followed by `df.to_dict` with orient
records: first
non-blank line is the header, remaining non-blank lines are data rows,
cells are comma-separated, column types are inferred per column.  `none`
models a parsing exception (empty input, ragged row). -/
def read_csv_records (text : String) : Option (List Row) :=
  match (splitOnChar (Char.ofNat 10) text.data).filter (fun l => !l.isEmpty) with
  | [] => none
  | header :: body =>
    let cols := splitOnChar (Char.ofNat 44) header
    let rows := body.map (splitOnChar (Char.ofNat 44))
    if rows.all (fun r => r.length = cols.length) then
      let typed := (List.range cols.length).map
        (fun j => inferColumn (rows.map (fun r => r.getD j [])))
      some ((List.range rows.length).map
        (fun i => (cols.map (fun c => (⟨c⟩ : String))).zip
          (typed.map (fun col => col.getD i (.str "")))))
    else none

/-- The body of the `try` block: `gzip.open` + UTF-8 decode + `pd.read_csv`
+ `to_dict`.  `none` is the raised exception the `except` clause catches. -/
def parse_body : Body → Option (List Row)
  | .valid text => read_csv_records text
  | .invalid => none

/-! ## The extraction resource

`extract_nyc_taxi_data` is a generator: per file it logs, performs one
`requests.get` (NOT inside the `try`, so a transport exception propagates
and aborts the generator), skips non-200 responses with a warning, and
wraps only decompress/parse/yield in `try/except`.  The model returns the
batches yielded before any abort, the log entries emitted, the number of
HTTP requests attempted, and the propagated exception if one occurred. -/

/-- Levels of the `logging` calls in the source. -/
inductive LogLevel where
  | debug | info | warning | error
deriving DecidableEq, Repr

/-- The individual `logger.*` messages of `extract_nyc_taxi_data`. -/
inductive LogMsg where
  | generatedFileNames (names : List String)
  | downloading (file_name : String)
  | fileURL (file_url : String)
  | failedDownload (file_name : String) (status : Nat)
  | successDownload (file_name : String)
  | yieldedRows (n : Nat) (file_name : String)
  | errorProcessing (file_name : String)
deriving DecidableEq, Repr

/-- One log record: level plus message. -/
structure LogEntry where
  level : LogLevel
  msg : LogMsg
deriving DecidableEq, Repr

/-- Observable result of running the generator to completion (or to the
point where an uncaught exception escaped it). -/
structure RunResult where
  batches : List (List Row)
  log : List LogEntry
  requests : Nat
  aborted : Option String
deriving DecidableEq, Repr

/-- The `for file_name in file_names:` loop of `extract_nyc_taxi_data`.
`fetch` maps a URL to the outcome of `requests.get` on it (the remote
content). -/
def extractLoop (base : String) (fetch : String → FetchOutcome) :
    List String → RunResult
  | [] => ⟨[], [], 0, none⟩
  | file_name :: rest =>
    let pre : List LogEntry :=
      [⟨.info, .downloading file_name⟩, ⟨.debug, .fileURL (base ++ file_name)⟩]
    match fetch (base ++ file_name) with
    | .raise msg => ⟨[], pre, 1, some msg⟩
    | .response status body =>
      if status ≠ 200 then
        let r := extractLoop base fetch rest
        ⟨r.batches, pre ++ ⟨.warning, .failedDownload file_name status⟩ :: r.log,
          r.requests + 1, r.aborted⟩
      else
        match parse_body body with
        | none =>
          let r := extractLoop base fetch rest
          ⟨r.batches,
            pre ++ ⟨.info, .successDownload file_name⟩ ::
              ⟨.error, .errorProcessing file_name⟩ :: r.log,
            r.requests + 1, r.aborted⟩
        | some batch =>
          let r := extractLoop base fetch rest
          ⟨batch :: r.batches,
            pre ++ ⟨.info, .successDownload file_name⟩ ::
              ⟨.info, .yieldedRows batch.length file_name⟩ :: r.log,
            r.requests + 1, r.aborted⟩

/-- Embedding of `extract_nyc_taxi_data` for a request whose dates are
already parsed:
enumerate the file names once, log them, then run the download loop. -/
def extract_nyc_taxi_data (taxi_type : String) (start_date end_date : Date)
    (fetch : String → FetchOutcome) : RunResult :=
  let file_names :=
    WorkflowOrchestrationDlt.generate_file_names taxi_type start_date end_date
  let r := extractLoop (WorkflowOrchestrationDlt.base_url taxi_type) fetch
    file_names
  ⟨r.batches, ⟨.info, .generatedFileNames file_names⟩ :: r.log,
    r.requests, r.aborted⟩

/-! ## Decimal rendering facts -/

/-- Left inverse of decimal rendering: fold digits back into a number. -/
def decodeDec (cs : List Char) : Nat :=
  cs.foldl (fun a c => a * 10 + (c.toNat - 48)) 0

lemma decDigitChar_toNat {d : Nat} (h : d < 10) :
    (decDigitChar d).toNat = 48 + d := by
  have : ∀ d, d < 10 → (decDigitChar d).toNat = 48 + d := by decide
  exact this d h

lemma decDigitChar_ne_dash {d : Nat} (h : d < 10) :
    decDigitChar d ≠ Char.ofNat 45 := by
  have : ∀ d, d < 10 → decDigitChar d ≠ Char.ofNat 45 := by decide
  exact this d h

lemma decodeDec_renderAux (n : Nat) :
    ∀ fuel, n < fuel → decodeDec (renderAux fuel n) = n := by
  induction n using Nat.strong_induction_on with
  | _ n ih =>
    intro fuel hf
    match fuel with
    | f + 1 =>
      by_cases h10 : n < 10
      · simp only [renderAux, if_pos h10, decodeDec, List.foldl,
          decDigitChar_toNat h10]
        omega
      · have hn0 : n / 10 < n := Nat.div_lt_self (by omega) (by omega)
        have hfu : n / 10 < f := by omega
        have hrec := ih (n / 10) hn0 f hfu
        simp only [renderAux, if_neg h10, decodeDec, List.foldl_append,
          List.foldl] at hrec ⊢
        rw [hrec, decDigitChar_toNat (Nat.mod_lt n (by omega))]
        omega

lemma natLit_inj {a b : Nat} (h : natLit a = natLit b) : a = b := by
  have hd : renderAux (a + 1) a = renderAux (b + 1) b := congrArg String.data h
  have ha := decodeDec_renderAux a (a + 1) (Nat.lt_succ_self a)
  have hb := decodeDec_renderAux b (b + 1) (Nat.lt_succ_self b)
  rw [hd, hb] at ha
  exact ha.symm

lemma dash_not_mem_renderAux : ∀ fuel n, Char.ofNat 45 ∉ renderAux fuel n := by
  intro fuel
  induction fuel with
  | zero => intro n; simp [renderAux]
  | succ f ih =>
    intro n
    by_cases h10 : n < 10
    · simp only [renderAux, if_pos h10, List.mem_singleton]
      exact fun hc => decDigitChar_ne_dash h10 hc.symm
    · simp only [renderAux, if_neg h10, List.mem_append, List.mem_singleton]
      rintro (hmem | hc)
      · exact ih (n / 10) hmem
      · exact decDigitChar_ne_dash (Nat.mod_lt n (by omega)) hc.symm

/-- Splitting at a separator character absent from both left parts is
unambiguous. -/
lemma append_sep_inj {c : Char} :
    ∀ {l1 l2 r1 r2 : List Char}, c ∉ l1 → c ∉ l2 →
      l1 ++ c :: r1 = l2 ++ c :: r2 → l1 = l2 ∧ r1 = r2 := by
  intro l1
  induction l1 with
  | nil =>
    intro l2 r1 r2 _ h2 h
    cases l2 with
    | nil => simpa using h
    | cons x xs =>
      simp only [List.nil_append, List.cons_append, List.cons.injEq] at h
      exact absurd (h.1 ▸ List.mem_cons_self x xs) h2
  | cons x xs ih =>
    intro l2 r1 r2 h1 h2 h
    cases l2 with
    | nil =>
      simp only [List.cons_append, List.nil_append, List.cons.injEq] at h
      exact absurd (h.1.symm ▸ List.mem_cons_self x xs) h1
    | cons y ys =>
      simp only [List.cons_append, List.cons.injEq] at h
      obtain ⟨rfl, h⟩ := h
      have := ih (fun hm => h1 (List.mem_cons_of_mem x hm))
        (fun hm => h2 (List.mem_cons_of_mem x hm)) h
      exact ⟨by rw [this.1], this.2⟩

lemma pad2_inj {m1 m2 : Nat} (h1 : m1 < 13) (h2 : m2 < 13)
    (h : pad2 m1 = pad2 m2) : m1 = m2 := by
  have : ∀ a, a < 13 → ∀ b, b < 13 → pad2 a = pad2 b → a = b := by decide
  exact this m1 h1 m2 h2 h

lemma tripdataFileName_firstOfMonth_inj (taxi : String) {k1 k2 : Nat}
    (h : WorkflowOrchestrationDlt.tripdataFileName taxi (firstOfMonth k1) =
      WorkflowOrchestrationDlt.tripdataFileName taxi (firstOfMonth k2)) :
    k1 = k2 := by
  have hdash : ("-" : String).data = [Char.ofNat 45] := by decide
  have hd := congrArg String.data h
  simp only [WorkflowOrchestrationDlt.tripdataFileName, strftime_Ym,
    firstOfMonth, natLit, String.data_append, hdash, List.append_assoc,
    List.singleton_append] at hd
  have hd2 := List.append_cancel_left (List.append_cancel_left hd)
  obtain ⟨hy, hrest⟩ := append_sep_inj (dash_not_mem_renderAux _ _)
    (dash_not_mem_renderAux _ _) hd2
  have hyear : k1 / 12 = k2 / 12 := by
    have ha := decodeDec_renderAux (k1 / 12) (k1 / 12 + 1) (Nat.lt_succ_self _)
    have hb := decodeDec_renderAux (k2 / 12) (k2 / 12 + 1) (Nat.lt_succ_self _)
    rw [hy, hb] at ha
    exact ha.symm
  have hmonth : k1 % 12 + 1 = k2 % 12 + 1 := by
    have hp : (pad2 (k1 % 12 + 1)).data = (pad2 (k2 % 12 + 1)).data :=
      List.append_cancel_right hrest
    exact pad2_inj (by omega) (by omega) (String.ext hp)
  omega

/-! ## Date range facts -/

/-- Index of the first enumerated month: the start month itself when the
start date is at (or before) its month start, else the following month. -/
def startMonthIdx (s : Date) : Nat :=
  s.monthIndex + if s.day ≤ 1 then 0 else 1

lemma date_range_MS_eq_range (s e : Date)
    (hsm1 : 1 ≤ s.month) (hsm2 : s.month ≤ 12)
    (hem1 : 1 ≤ e.month) (hem2 : e.month ≤ 12) (hed : 1 ≤ e.day) :
    date_range_MS s e =
      (List.range (e.monthIndex + 1 - startMonthIdx s)).map
        (fun i => firstOfMonth (startMonthIdx s + i)) := by
  unfold date_range_MS
  rw [List.filter_map]
  have hpt : ∀ i ∈ List.range (e.monthIndex + 1 - s.monthIndex),
      ((fun d => dateLE s d && dateLE d e) ∘
          (fun i => firstOfMonth (s.monthIndex + i))) i =
        decide (startMonthIdx s ≤ s.monthIndex + i) := by
    intro i hi
    rw [List.mem_range] at hi
    simp only [Function.comp, dateLE, firstOfMonth, Date.monthIndex,
      startMonthIdx, ← Bool.decide_and, decide_eq_decide] at hi ⊢
    constructor
    · intro hand
      rcases hand.1 with hy | ⟨hy, hm | ⟨hm, hd⟩⟩ <;> split <;> omega
    · intro hge
      constructor
      · by_cases hcase : s.day ≤ 1
        · simp only [if_pos hcase] at hge
          by_cases hyear : s.year < (s.year * 12 + (s.month - 1) + i) / 12
          · exact Or.inl hyear
          · refine Or.inr ⟨by omega, ?_⟩
            by_cases hmon : s.month < (s.year * 12 + (s.month - 1) + i) % 12 + 1
            · exact Or.inl hmon
            · exact Or.inr ⟨by omega, by omega⟩
        · simp only [if_neg hcase] at hge
          by_cases hyear : s.year < (s.year * 12 + (s.month - 1) + i) / 12
          · exact Or.inl hyear
          · refine Or.inr ⟨by omega, Or.inl (by omega)⟩
      · by_cases hyear : (s.year * 12 + (s.month - 1) + i) / 12 < e.year
        · exact Or.inl hyear
        · refine Or.inr ⟨by omega, ?_⟩
          by_cases hmon : (s.year * 12 + (s.month - 1) + i) % 12 + 1 < e.month
          · exact Or.inl hmon
          · exact Or.inr ⟨by omega, by omega⟩
  rw [List.filter_congr hpt]
  by_cases hday : s.day ≤ 1
  · have hs0 : startMonthIdx s = s.monthIndex := by
      simp [startMonthIdx, hday]
    rw [hs0]
    have : ∀ i ∈ List.range (e.monthIndex + 1 - s.monthIndex),
        decide (s.monthIndex ≤ s.monthIndex + i) = true := by
      intro i _; simp
    rw [List.filter_eq_self.mpr this]
  · have hs1 : startMonthIdx s = s.monthIndex + 1 := by
      simp [startMonthIdx, hday]
    rw [hs1]
    cases hn : e.monthIndex + 1 - s.monthIndex with
    | zero =>
      have : e.monthIndex + 1 - (s.monthIndex + 1) = 0 := by omega
      simp [this, hn]
    | succ m =>
      have hm : e.monthIndex + 1 - (s.monthIndex + 1) = m := by omega
      rw [hm, List.range_succ_eq_map]
      simp only [List.filter_cons, List.filter_map]
      have hz : decide (s.monthIndex + 1 ≤ s.monthIndex + 0) = false := by
        simp
      rw [hz]
      have hall : ∀ i ∈ List.range m,
          ((fun i => decide (s.monthIndex + 1 ≤ s.monthIndex + i)) ∘
            Nat.succ) i = true := by
        intro i _
        simp only [Function.comp]
        exact decide_eq_true_eq.mpr (by omega)
      rw [List.filter_eq_self.mpr hall]
      simp only [Bool.false_eq_true, if_false, List.map_map]
      refine List.map_congr_left fun i _ => ?_
      simp only [Function.comp]
      exact congrArg firstOfMonth (by omega)

/-! ## Claim theorems -/

/-- C1: for calendar month values `start_month ≤ end_month` (day 1, month
1..12), `generate_file_names` returns exactly one file name per calendar
month in the inclusive range — it equals the enumeration of consecutive
month indices rendered into names — with the stated length and no
duplicates. -/
theorem generate_file_names_one_per_month (taxi : String) (s e : Date)
    (hsd : s.day = 1) (hed : e.day = 1)
    (hsm1 : 1 ≤ s.month) (hsm2 : s.month ≤ 12)
    (hem1 : 1 ≤ e.month) (hem2 : e.month ≤ 12)
    (_hle : s.monthIndex ≤ e.monthIndex) :
    WorkflowOrchestrationDlt.generate_file_names taxi s e =
      (List.range (e.monthIndex + 1 - s.monthIndex)).map
        (fun i => WorkflowOrchestrationDlt.tripdataFileName taxi
          (firstOfMonth (s.monthIndex + i))) ∧
    (WorkflowOrchestrationDlt.generate_file_names taxi s e).length =
      e.monthIndex + 1 - s.monthIndex ∧
    (WorkflowOrchestrationDlt.generate_file_names taxi s e).Nodup := by
  have hrange := date_range_MS_eq_range s e hsm1 hsm2 hem1 hem2 (by omega)
  have hs0 : startMonthIdx s = s.monthIndex := by simp [startMonthIdx, hsd]
  rw [hs0] at hrange
  have heq : WorkflowOrchestrationDlt.generate_file_names taxi s e =
      (List.range (e.monthIndex + 1 - s.monthIndex)).map
        (fun i => WorkflowOrchestrationDlt.tripdataFileName taxi
          (firstOfMonth (s.monthIndex + i))) := by
    unfold WorkflowOrchestrationDlt.generate_file_names
    rw [hrange, List.map_map]
    rfl
  refine ⟨heq, by rw [heq]; simp, ?_⟩
  rw [heq]
  refine List.Nodup.map ?_ (List.nodup_range _)
  intro i1 i2 hnames
  have := tripdataFileName_firstOfMonth_inj taxi hnames
  omega

/-- Witness for C1 at the concrete request (yellow, 2023-01, 2023-03). -/
theorem generate_file_names_one_per_month_witness :
    (⟨2023, 1, 1⟩ : Date).day = 1 ∧ (⟨2023, 3, 1⟩ : Date).day = 1 ∧
    1 ≤ (⟨2023, 1, 1⟩ : Date).month ∧ (⟨2023, 1, 1⟩ : Date).month ≤ 12 ∧
    1 ≤ (⟨2023, 3, 1⟩ : Date).month ∧ (⟨2023, 3, 1⟩ : Date).month ≤ 12 ∧
    (⟨2023, 1, 1⟩ : Date).monthIndex ≤ (⟨2023, 3, 1⟩ : Date).monthIndex ∧
    (WorkflowOrchestrationDlt.generate_file_names "yellow" ⟨2023, 1, 1⟩ ⟨2023, 3, 1⟩ =
      (List.range ((⟨2023, 3, 1⟩ : Date).monthIndex + 1 -
          (⟨2023, 1, 1⟩ : Date).monthIndex)).map
        (fun i => WorkflowOrchestrationDlt.tripdataFileName "yellow"
          (firstOfMonth ((⟨2023, 1, 1⟩ : Date).monthIndex + i))) ∧
    (WorkflowOrchestrationDlt.generate_file_names "yellow" ⟨2023, 1, 1⟩ ⟨2023, 3, 1⟩).length =
      (⟨2023, 3, 1⟩ : Date).monthIndex + 1 - (⟨2023, 1, 1⟩ : Date).monthIndex ∧
    (WorkflowOrchestrationDlt.generate_file_names "yellow" ⟨2023, 1, 1⟩ ⟨2023, 3, 1⟩).Nodup) :=
  ⟨rfl, rfl, by decide, by decide, by decide, by decide, by decide,
    generate_file_names_one_per_month "yellow" ⟨2023, 1, 1⟩ ⟨2023, 3, 1⟩
      rfl rfl (by decide) (by decide) (by decide) (by decide) (by decide)⟩

/-- C2 (divergence evidence): a transport exception raised by
`requests.get` is NOT caught — `requests.get` sits outside the `try`
block — so the run aborts: with two enumerated files and a fetch oracle
that raises, no batch is yielded, only one request is attempted (iteration
does not continue to the second file), and the exception propagates. -/
theorem transport_exception_aborts_run :
    (WorkflowOrchestrationDlt.generate_file_names "yellow"
        ⟨2023, 1, 1⟩ ⟨2023, 2, 1⟩).length = 2 ∧
    extract_nyc_taxi_data "yellow" ⟨2023, 1, 1⟩ ⟨2023, 2, 1⟩
        (fun _ => .raise "ConnectionError") =
      { batches := [],
        log := [⟨.info, .generatedFileNames
            ["yellow_tripdata_2023-01.csv.gz", "yellow_tripdata_2023-02.csv.gz"]⟩,
          ⟨.info, .downloading "yellow_tripdata_2023-01.csv.gz"⟩,
          ⟨.debug, .fileURL
            "https://github.com/DataTalksClub/nyc-tlc-data/releases/download/yellow/yellow_tripdata_2023-01.csv.gz"⟩],
        requests := 1,
        aborted := some "ConnectionError" } := by decide

/-- C3 counterexample: for start 2023-01-15 and end 2023-03-10 the closed
month interval is 2023-01 .. 2023-03, but the start month 2023-01 gets no
file name: day-of-month is not ignored for the start date, so the claim
fails as stated. -/
theorem generate_file_names_midmonth_counterexample :
    WorkflowOrchestrationDlt.generate_file_names "yellow" ⟨2023, 1, 15⟩ ⟨2023, 3, 10⟩ =
      ["yellow_tripdata_2023-02.csv.gz", "yellow_tripdata_2023-03.csv.gz"] ∧
    WorkflowOrchestrationDlt.tripdataFileName "yellow"
        (firstOfMonth (Date.monthIndex ⟨2023, 1, 15⟩)) ∉
      WorkflowOrchestrationDlt.generate_file_names "yellow" ⟨2023, 1, 15⟩ ⟨2023, 3, 10⟩ := by
  decide

/-- C3 amended: exactly one File Reference is derived per month-START
instant lying inside the closed `[start, end]` date interval: the start
month is included only when the day-of-month of the start date is 1, and
the day-of-month of the end date never excludes its own month. -/
theorem generate_file_names_month_starts_in_range (taxi : String) (s e : Date)
    (hsm1 : 1 ≤ s.month) (hsm2 : s.month ≤ 12)
    (hem1 : 1 ≤ e.month) (hem2 : e.month ≤ 12) (hed : 1 ≤ e.day) :
    WorkflowOrchestrationDlt.generate_file_names taxi s e =
      (List.range (e.monthIndex + 1 - startMonthIdx s)).map
        (fun i => WorkflowOrchestrationDlt.tripdataFileName taxi
          (firstOfMonth (startMonthIdx s + i))) := by
  unfold WorkflowOrchestrationDlt.generate_file_names
  rw [date_range_MS_eq_range s e hsm1 hsm2 hem1 hem2 hed, List.map_map]
  rfl

/-- Witness for the amended C3 at the mid-month request. -/
theorem generate_file_names_month_starts_in_range_witness :
    1 ≤ (⟨2023, 1, 15⟩ : Date).month ∧ (⟨2023, 1, 15⟩ : Date).month ≤ 12 ∧
    1 ≤ (⟨2023, 3, 10⟩ : Date).month ∧ (⟨2023, 3, 10⟩ : Date).month ≤ 12 ∧
    1 ≤ (⟨2023, 3, 10⟩ : Date).day ∧
    WorkflowOrchestrationDlt.generate_file_names "yellow" ⟨2023, 1, 15⟩ ⟨2023, 3, 10⟩ =
      (List.range ((⟨2023, 3, 10⟩ : Date).monthIndex + 1 -
          startMonthIdx ⟨2023, 1, 15⟩)).map
        (fun i => WorkflowOrchestrationDlt.tripdataFileName "yellow"
          (firstOfMonth (startMonthIdx ⟨2023, 1, 15⟩ + i))) :=
  ⟨by decide, by decide, by decide, by decide, by decide,
    generate_file_names_month_starts_in_range "yellow" ⟨2023, 1, 15⟩ ⟨2023, 3, 10⟩
      (by decide) (by decide) (by decide) (by decide) (by decide)⟩

/-- C4: per enumerated file, a 200 response hands the raw body unmodified
to the decompress-and-parse step (the result depends on the body only
through `parse_body body`, yielding its batch exactly when parsing
succeeds), while any non-200 status logs a warning, produces no batch for
that file, and continues with the remaining files. -/
theorem fetch_status_dispatch (base file_name : String) (rest : List String)
    (fetch : String → FetchOutcome) (status : Nat) (body : Body)
    (hf : fetch (base ++ file_name) = .response status body) :
    (status = 200 →
      extractLoop base fetch (file_name :: rest) =
        { batches :=
            match parse_body body with
            | none => (extractLoop base fetch rest).batches
            | some batch => batch :: (extractLoop base fetch rest).batches,
          log := ⟨.info, .downloading file_name⟩ ::
            ⟨.debug, .fileURL (base ++ file_name)⟩ ::
            ⟨.info, .successDownload file_name⟩ ::
            (match parse_body body with
             | none => ⟨.error, .errorProcessing file_name⟩ ::
                 (extractLoop base fetch rest).log
             | some batch => ⟨.info, .yieldedRows batch.length file_name⟩ ::
                 (extractLoop base fetch rest).log),
          requests := (extractLoop base fetch rest).requests + 1,
          aborted := (extractLoop base fetch rest).aborted }) ∧
    (status ≠ 200 →
      extractLoop base fetch (file_name :: rest) =
        { batches := (extractLoop base fetch rest).batches,
          log := ⟨.info, .downloading file_name⟩ ::
            ⟨.debug, .fileURL (base ++ file_name)⟩ ::
            ⟨.warning, .failedDownload file_name status⟩ ::
            (extractLoop base fetch rest).log,
          requests := (extractLoop base fetch rest).requests + 1,
          aborted := (extractLoop base fetch rest).aborted }) := by
  constructor
  · intro h200
    subst h200
    simp only [extractLoop, hf]
    cases hpb : parse_body body <;> simp [hpb]
  · intro hne
    simp only [extractLoop, hf]
    simp [hne]

/-- Witness for C4: a 404 on the first file with one file remaining. -/
theorem fetch_status_dispatch_witness :
    (fun u => if u = "u/a" then FetchOutcome.response 404 .invalid
        else FetchOutcome.response 200 .invalid) ("u/" ++ "a") =
      FetchOutcome.response 404 Body.invalid ∧
    ((404 = 200 →
      extractLoop "u/" (fun u => if u = "u/a" then FetchOutcome.response 404 .invalid
          else FetchOutcome.response 200 .invalid) ("a" :: ["b"]) =
        { batches :=
            match parse_body Body.invalid with
            | none => (extractLoop "u/" (fun u => if u = "u/a" then FetchOutcome.response 404 .invalid
                else FetchOutcome.response 200 .invalid) ["b"]).batches
            | some batch => batch :: (extractLoop "u/" (fun u => if u = "u/a" then FetchOutcome.response 404 .invalid
                else FetchOutcome.response 200 .invalid) ["b"]).batches,
          log := ⟨.info, .downloading "a"⟩ ::
            ⟨.debug, .fileURL ("u/" ++ "a")⟩ ::
            ⟨.info, .successDownload "a"⟩ ::
            (match parse_body Body.invalid with
             | none => ⟨.error, .errorProcessing "a"⟩ ::
                 (extractLoop "u/" (fun u => if u = "u/a" then FetchOutcome.response 404 .invalid
                   else FetchOutcome.response 200 .invalid) ["b"]).log
             | some batch => ⟨.info, .yieldedRows batch.length "a"⟩ ::
                 (extractLoop "u/" (fun u => if u = "u/a" then FetchOutcome.response 404 .invalid
                   else FetchOutcome.response 200 .invalid) ["b"]).log),
          requests := (extractLoop "u/" (fun u => if u = "u/a" then FetchOutcome.response 404 .invalid
            else FetchOutcome.response 200 .invalid) ["b"]).requests + 1,
          aborted := (extractLoop "u/" (fun u => if u = "u/a" then FetchOutcome.response 404 .invalid
            else FetchOutcome.response 200 .invalid) ["b"]).aborted }) ∧
    (404 ≠ 200 →
      extractLoop "u/" (fun u => if u = "u/a" then FetchOutcome.response 404 .invalid
          else FetchOutcome.response 200 .invalid) ("a" :: ["b"]) =
        { batches := (extractLoop "u/" (fun u => if u = "u/a" then FetchOutcome.response 404 .invalid
            else FetchOutcome.response 200 .invalid) ["b"]).batches,
          log := ⟨.info, .downloading "a"⟩ ::
            ⟨.debug, .fileURL ("u/" ++ "a")⟩ ::
            ⟨.warning, .failedDownload "a" 404⟩ ::
            (extractLoop "u/" (fun u => if u = "u/a" then FetchOutcome.response 404 .invalid
              else FetchOutcome.response 200 .invalid) ["b"]).log,
          requests := (extractLoop "u/" (fun u => if u = "u/a" then FetchOutcome.response 404 .invalid
            else FetchOutcome.response 200 .invalid) ["b"]).requests + 1,
          aborted := (extractLoop "u/" (fun u => if u = "u/a" then FetchOutcome.response 404 .invalid
            else FetchOutcome.response 200 .invalid) ["b"]).aborted })) :=
  ⟨by decide,
    fetch_status_dispatch "u/" "a" ["b"]
      (fun u => if u = "u/a" then FetchOutcome.response 404 .invalid
        else FetchOutcome.response 200 .invalid) 404 Body.invalid (by decide)⟩

/-- C5: a successfully downloaded (status 200) body on which
decompression/parsing fails is skipped — an error is logged, no batch is
produced for that file — and the remaining files are still processed (one
more request than the tail run, same tail batches and outcome). -/
theorem parse_failure_skips_file (base file_name : String) (rest : List String)
    (fetch : String → FetchOutcome) (body : Body)
    (hf : fetch (base ++ file_name) = .response 200 body)
    (hp : parse_body body = none) :
    extractLoop base fetch (file_name :: rest) =
      { batches := (extractLoop base fetch rest).batches,
        log := ⟨.info, .downloading file_name⟩ ::
          ⟨.debug, .fileURL (base ++ file_name)⟩ ::
          ⟨.info, .successDownload file_name⟩ ::
          ⟨.error, .errorProcessing file_name⟩ ::
          (extractLoop base fetch rest).log,
        requests := (extractLoop base fetch rest).requests + 1,
        aborted := (extractLoop base fetch rest).aborted } := by
  simp only [extractLoop, hf, hp]
  simp

/-- Witness for C5: a 200 response carrying invalid gzip data, with one
further file that is still downloaded afterwards. -/
theorem parse_failure_skips_file_witness :
    (fun _ : String => FetchOutcome.response 200 Body.invalid) ("u/" ++ "a") =
      FetchOutcome.response 200 Body.invalid ∧
    parse_body Body.invalid = none ∧
    extractLoop "u/" (fun _ => FetchOutcome.response 200 Body.invalid) ("a" :: ["b"]) =
      { batches := (extractLoop "u/" (fun _ => FetchOutcome.response 200 Body.invalid) ["b"]).batches,
        log := ⟨.info, .downloading "a"⟩ ::
          ⟨.debug, .fileURL ("u/" ++ "a")⟩ ::
          ⟨.info, .successDownload "a"⟩ ::
          ⟨.error, .errorProcessing "a"⟩ ::
          (extractLoop "u/" (fun _ => FetchOutcome.response 200 Body.invalid) ["b"]).log,
        requests := (extractLoop "u/" (fun _ => FetchOutcome.response 200 Body.invalid) ["b"]).requests + 1,
        aborted := (extractLoop "u/" (fun _ => FetchOutcome.response 200 Body.invalid) ["b"]).aborted } :=
  ⟨rfl, rfl,
    parse_failure_skips_file "u/" "a" ["b"]
      (fun _ => FetchOutcome.response 200 Body.invalid) Body.invalid rfl rfl⟩

/-- C6: when the start month is strictly after the end month,
`generate_file_names` returns the empty list (the function is total: no
error is raised). -/
theorem generate_file_names_empty_when_start_after_end (taxi : String)
    (s e : Date) (h : e.monthIndex < s.monthIndex) :
    WorkflowOrchestrationDlt.generate_file_names taxi s e = [] := by
  unfold WorkflowOrchestrationDlt.generate_file_names date_range_MS
  have h0 : e.monthIndex + 1 - s.monthIndex = 0 := by omega
  rw [h0]
  rfl

/-- Witness for C6 at (2023-04, 2023-01). -/
theorem generate_file_names_empty_when_start_after_end_witness :
    (⟨2023, 1, 1⟩ : Date).monthIndex < (⟨2023, 4, 1⟩ : Date).monthIndex ∧
    WorkflowOrchestrationDlt.generate_file_names "yellow" ⟨2023, 4, 1⟩ ⟨2023, 1, 1⟩ = [] :=
  ⟨by decide,
    generate_file_names_empty_when_start_after_end "yellow" ⟨2023, 4, 1⟩ ⟨2023, 1, 1⟩
      (by decide)⟩

/-- C7: for category "yellow", start "2023-01", end "2023-03" the
enumerator returns exactly the three expected names in order. -/
theorem generate_file_names_yellow_2023_q1 :
    WorkflowOrchestrationDlt.Request.file_names ⟨"yellow", "2023-01", "2023-03"⟩ =
      some ["yellow_tripdata_2023-01.csv.gz", "yellow_tripdata_2023-02.csv.gz",
        "yellow_tripdata_2023-03.csv.gz"] := by decide

/-- C8: the extraction run is a pure function of the request and the
remote content: two invocations with identical inputs and extensionally
identical fetch outcomes produce identical results (in particular,
identical sequences of Row Batches); no hidden state is involved. -/
theorem extract_deterministic_in_remote_content (taxi : String) (s e : Date)
    (fetch1 fetch2 : String → FetchOutcome) (h : ∀ u, fetch1 u = fetch2 u) :
    extract_nyc_taxi_data taxi s e fetch1 = extract_nyc_taxi_data taxi s e fetch2 := by
  rw [funext h]

/-- Witness for C8: two identical remote-content oracles. -/
theorem extract_deterministic_in_remote_content_witness :
    (∀ u : String, (fun _ : String => FetchOutcome.response 404 Body.invalid) u =
      (fun _ : String => FetchOutcome.response 404 Body.invalid) u) ∧
    extract_nyc_taxi_data "yellow" ⟨2023, 1, 1⟩ ⟨2023, 2, 1⟩
        (fun _ => FetchOutcome.response 404 Body.invalid) =
      extract_nyc_taxi_data "yellow" ⟨2023, 1, 1⟩ ⟨2023, 2, 1⟩
        (fun _ => FetchOutcome.response 404 Body.invalid) :=
  ⟨fun _ => rfl,
    extract_deterministic_in_remote_content "yellow" ⟨2023, 1, 1⟩ ⟨2023, 2, 1⟩
      _ _ (fun _ => rfl)⟩

/-- C9: a valid gzip body whose text is the CSV
`VendorID,total_amount` / `1,15.50` parses into exactly one batch of
exactly one record, with `VendorID` inferred as integer 1 and
`total_amount` as the (float) number 15.50. -/
theorem parse_single_row_example :
    parse_body (.valid "VendorID,total_amount\n1,15.50") =
      some [[("VendorID", .int 1), ("total_amount", .num 155 1)]] ∧
    CellValue.ratOfNum 155 1 = (15.50 : Rat) := by
  constructor
  · decide
  · norm_num [CellValue.ratOfNum]

/-- C10: whenever `generate_file_names` returns the empty list, the
extraction resource yields no Row Batches and performs zero HTTP
requests (only the enumeration log entry is emitted). -/
theorem empty_enumeration_no_requests (taxi : String) (s e : Date)
    (fetch : String → FetchOutcome)
    (h : WorkflowOrchestrationDlt.generate_file_names taxi s e = []) :
    extract_nyc_taxi_data taxi s e fetch =
      { batches := [], log := [⟨.info, .generatedFileNames []⟩],
        requests := 0, aborted := none } := by
  unfold extract_nyc_taxi_data
  simp only [h, extractLoop]

/-- Witness for C10: a request whose start month is after its end month. -/
theorem empty_enumeration_no_requests_witness :
    WorkflowOrchestrationDlt.generate_file_names "yellow" ⟨2023, 5, 1⟩ ⟨2023, 2, 1⟩ = [] ∧
    extract_nyc_taxi_data "yellow" ⟨2023, 5, 1⟩ ⟨2023, 2, 1⟩
        (fun _ => FetchOutcome.raise "ConnectionError") =
      { batches := [], log := [⟨.info, .generatedFileNames []⟩],
        requests := 0, aborted := none } :=
  ⟨by decide,
    empty_enumeration_no_requests "yellow" ⟨2023, 5, 1⟩ ⟨2023, 2, 1⟩
      (fun _ => FetchOutcome.raise "ConnectionError") (by decide)⟩
